import Mathlib

/-!
Verification of the audio-processing frontend (React client).

The definitions below are a shallow embedding of the client code:
* `src/frontend/react-app/src/App.js` (third, current revision: dynamic EQ
  bands, `handleSubmit`, `handleFileChange`, `handleRemoveEqBand`,
  `handleUpdateEqBand`);
* `src/frontend/react-app/src/components/AudioControls.js` (`handleBandChange`);
* `src/frontend/react-app/src/components/WaveformDisplay.js` (`handleCanvasClick`);
* the api module (`processAudio`).

JavaScript numbers are embedded as rationals (every value occurring in the
client is an exact decimal), DOM/network effects are made explicit:
allocated blob URLs are numbered handles recorded in `createdUrls`,
`URL.revokeObjectURL` calls would be recorded in `revokedUrls`, issued
network requests in `requests`, toast notifications in `toasts`.
-/

namespace ApiTut

/-- One equalizer band exactly as held in the `eqBands` React state
(`App.js`): bookkeeping fields `id`, `name`, `editable`, `removable`,
`enabled` plus the acoustic parameters `freq`, `gain`, `q`, `type`. -/
structure EqBand where
  id : String
  name : String
  freq : ℚ
  gain : ℚ
  q : ℚ
  type : String
  editable : Bool
  removable : Bool
  enabled : Bool
deriving Repr, DecidableEq

/-- The three seed bands of the initial `eqBands` state in `App.js`. -/
def defaultEqBands : List EqBand :=
  [ { id := "lowcut", freq := 100, gain := 0, q := 7/10, type := "lowshelf",
      editable := true, removable := false, name := "Low Cut", enabled := true },
    { id := "clarity", freq := 2500, gain := 0, q := 14/10, type := "peaking",
      editable := true, removable := false, name := "Vocal Clarity", enabled := true },
    { id := "presence", freq := 5000, gain := 0, q := 2, type := "peaking",
      editable := true, removable := false, name := "Presence/Sibilance", enabled := true } ]

/-- The filter predicate of the `activeEqBands` computation in
`handleSubmit` (`App.js`):
`band.enabled && (band.gain !== 0 || (band.type === 'lowshelf' && band.gain < 0)
|| (band.type === 'highshelf' && band.gain < 0))`. -/
def bandActive (band : EqBand) : Bool :=
  band.enabled && (band.gain != 0
    || (band.type == "lowshelf" && decide (band.gain < 0))
    || (band.type == "highshelf" && decide (band.gain < 0)))

/-- The wire representation of one EQ band: the object literal built in
`handleSubmit`, which carries only `freq`, `gain`, `q`, `type`. -/
structure SerializedBand where
  freq : ℚ
  gain : ℚ
  q : ℚ
  type : String
deriving Repr, DecidableEq

/-- The map step of the `activeEqBands` computation in `handleSubmit`. -/
def serializeBand (band : EqBand) : SerializedBand :=
  { freq := band.freq, gain := band.gain, q := band.q, type := band.type }

/-- `const activeEqBands = eqBands.filter(...).map(...)` from `handleSubmit`. -/
def activeEqBands (eqBands : List EqBand) : List SerializedBand :=
  (eqBands.filter bandActive).map serializeBand

/-- A value stored in the multipart `FormData` body: the selected file, a
number (stringified by the browser on serialization), a plain string, or the
`JSON.stringify`-ed array of serialized EQ bands. -/
inductive FormValue where
  | fileVal (name : String)
  | numVal (x : ℚ)
  | strVal (s : String)
  | jsonBands (bands : List SerializedBand)
deriving Repr, DecidableEq

/-- A multipart body is the ordered list of appended key/value pairs. -/
abbrev FormBody := List (String × FormValue)

/-- Whether a key was appended to the body. -/
def hasField (fd : FormBody) (key : String) : Bool :=
  fd.any (fun e => e.1 == key)

/-- The first value appended under a key, if any. -/
def getField (fd : FormBody) (key : String) : Option FormValue :=
  (fd.find? (fun e => e.1 == key)).map (fun e => e.2)

/-- `String(b)` for a JavaScript boolean. -/
def jsString (b : Bool) : String := if b then "true" else "false"

/-- The `formData` built by `handleSubmit` (`App.js`): five unconditional
`append` calls, then `eq_bands_json` only when `activeEqBands.length > 0`. -/
def buildFormData (file : String) (denoiseStrength : ℚ) (outputFormat : String)
    (applyNormalization requestWaveform : Bool) (eqBands : List EqBand) : FormBody :=
  [("file", FormValue.fileVal file),
   ("denoise_strength", FormValue.numVal denoiseStrength),
   ("output_format", FormValue.strVal outputFormat),
   ("apply_normalization", FormValue.strVal (jsString applyNormalization)),
   ("request_waveform", FormValue.strVal (jsString requestWaveform))]
  ++ (if 0 < (activeEqBands eqBands).length
      then [("eq_bands_json", FormValue.jsonBands (activeEqBands eqBands))]
      else [])

/-- `handleRemoveEqBand` (`App.js`):
`setEqBands(prevBands => prevBands.filter(band => band.id !== idToRemove))`. -/
def handleRemoveEqBand (bands : List EqBand) (idToRemove : String) : List EqBand :=
  bands.filter (fun band => band.id != idToRemove)

/-- A partial update object (`newValues`) as passed to `handleUpdateEqBand`;
a `none` field is absent from the JavaScript object and left unchanged by the
spread `{ ...band, ...newValues }`.  The UI handlers never put `id`, `name`,
`editable` or `removable` into such an object. -/
structure BandPatch where
  freq : Option ℚ := none
  gain : Option ℚ := none
  q : Option ℚ := none
  type : Option String := none
  enabled : Option Bool := none
deriving Repr, DecidableEq

/-- The object spread `{ ...band, ...newValues }` in `handleUpdateEqBand`. -/
def mergePatch (band : EqBand) (p : BandPatch) : EqBand :=
  { band with
    freq := p.freq.getD band.freq
    gain := p.gain.getD band.gain
    q := p.q.getD band.q
    type := p.type.getD band.type
    enabled := p.enabled.getD band.enabled }

/-- `handleUpdateEqBand` (`App.js`):
`prevBands.map(band => band.id === idToUpdate ? { ...band, ...newValues } : band)`. -/
def handleUpdateEqBand (bands : List EqBand) (idToUpdate : String)
    (newValues : BandPatch) : List EqBand :=
  bands.map (fun band => if band.id == idToUpdate then mergePatch band newValues else band)

/-- The three numeric fields that `handleBandChange`
(`AudioControls.js`) routes through `parseFloat`. -/
inductive NumField where
  | freq
  | gain
  | q
deriving Repr, DecidableEq

/-- Projection of a numeric field from a band. -/
def numFieldGet (band : EqBand) : NumField → ℚ
  | NumField.freq => band.freq
  | NumField.gain => band.gain
  | NumField.q => band.q

/-- `handleBandChange(id, field, value)` from `AudioControls.js`, for the
numeric fields `freq`, `gain`, `q`: the source computes
`parseFloat(value)` and calls `onUpdateEqBand(id, { [field]: numericValue })`
with no clamping or range check; the string-to-number parse is abstracted as
the rational the input denotes.  (The remaining branch, for the `type`
field, passes the raw string through and is `handleUpdateEqBand` with a
`type` patch.) -/
def handleBandChange (bands : List EqBand) (id : String) (field : NumField)
    (value : ℚ) : List EqBand :=
  match field with
  | NumField.freq => handleUpdateEqBand bands id { freq := some value }
  | NumField.gain => handleUpdateEqBand bands id { gain := some value }
  | NumField.q => handleUpdateEqBand bands id { q := some value }

/-- The JSON body of a structured success response (service contract):
optional fields are absent when the service omits them. -/
structure JsonBody where
  audio_b64 : String
  audio_format : Option String
  audio_filename : Option String
  original_waveform : Option (List ℚ)
  processed_waveform : Option (List ℚ)
deriving Repr, DecidableEq

/-- A service response, as distinguished by the api module: a non-ok status
(with the `detail` extracted from the JSON error body when parseable), a
JSON body, or a raw audio stream (with the filename already extracted from a
`Content-Disposition: attachment` header when the regex matched). -/
inductive ServerResponse where
  | failure (detail : Option String) (status : Nat)
  | jsonBody (body : JsonBody)
  | stream (dispositionFilename : Option String)
deriving Repr, DecidableEq

/-- The normalized result object returned by the api module `processAudio`.
`urlId` is the handle freshly allocated by `URL.createObjectURL`; `mimeType`
is the `type` given to the `Blob` constructor in the JSON branch (`none` in
the stream branch, where the blob keeps the type of the response body). -/
structure ApiResult where
  urlId : Nat
  mimeType : Option String
  downloadFilename : String
  originalWaveform : Option (List ℚ)
  processedWaveform : Option (List ℚ)
  isJson : Bool
deriving Repr, DecidableEq

/-- `processAudio(formData)` from the api module (src/unnamed/part_000).
The JSON branch builds
`new Blob([...], { type: audio/(data.audio_format || 'wav') })` and falls
back to the filename `processed_audio.(data.audio_format || 'wav')`; the
stream branch falls back to `processed_audio.wav`.  `freshUrl` is the handle
`URL.createObjectURL` returns. -/
def processAudio (resp : ServerResponse) (freshUrl : Nat) : Except String ApiResult :=
  match resp with
  | ServerResponse.failure detail status =>
      Except.error (detail.getD ("HTTP error! status: " ++ toString status))
  | ServerResponse.jsonBody body =>
      Except.ok
        { urlId := freshUrl,
          mimeType := some ("audio/" ++ body.audio_format.getD "wav"),
          downloadFilename :=
            body.audio_filename.getD ("processed_audio." ++ body.audio_format.getD "wav"),
          originalWaveform := body.original_waveform,
          processedWaveform := body.processed_waveform,
          isJson := true }
  | ServerResponse.stream dispositionFilename =>
      Except.ok
        { urlId := freshUrl,
          mimeType := none,
          downloadFilename := dispositionFilename.getD "processed_audio.wav",
          originalWaveform := none,
          processedWaveform := none,
          isJson := false }

/-- A toast notification emitted through react-toastify. -/
inductive Toast where
  | error (msg : String)
  | success (msg : String)
  | warn (msg : String)
  | info (msg : String)
deriving Repr, DecidableEq

/-- The React state of `App` plus the explicit effect log: issued requests,
blob URLs allocated by `URL.createObjectURL` (numbered by `nextUrl`), blob
URLs passed to `URL.revokeObjectURL`, and emitted toasts.  `urlMimes`
records the `Blob` mime tag each allocated URL points at. -/
structure AppState where
  selectedFile : Option String
  processedAudio : Option Nat
  isLoading : Bool
  denoiseStrength : ℚ
  outputFormat : String
  downloadFilename : String
  eqBands : List EqBand
  applyNormalization : Bool
  requestWaveform : Bool
  originalWaveform : Option (List ℚ)
  processedWaveform : Option (List ℚ)
  audioDuration : ℚ
  toasts : List Toast
  requests : List FormBody
  createdUrls : List Nat
  revokedUrls : List Nat
  urlMimes : List (Nat × Option String)
  nextUrl : Nat
deriving Repr, DecidableEq

/-- The initial `useState` values of `App` with an empty effect log. -/
def initialState : AppState :=
  { selectedFile := none, processedAudio := none, isLoading := false,
    denoiseStrength := 1/2, outputFormat := "wav",
    downloadFilename := "processed_audio.wav", eqBands := defaultEqBands,
    applyNormalization := false, requestWaveform := true,
    originalWaveform := none, processedWaveform := none, audioDuration := 0,
    toasts := [], requests := [], createdUrls := [], revokedUrls := [],
    urlMimes := [], nextUrl := 0 }

/-- `file.name.split('.')` then re-join all but the last part (or keep the
whole name when there is no dot), as in `handleFileChange`. -/
def originalStem (name : String) : String :=
  let parts := name.splitOn "."
  if 1 < parts.length then String.intercalate "." parts.dropLast else parts.headD ""

/-- `handleFileChange` (`App.js`): resets the duration, pauses the audio
element and clears its `src` (which detaches the old URL but revokes
nothing), stores the file, drops the previous result and waveforms, and
derives the download filename.  `file` is the (possibly absent) first
element of `event.target.files`. -/
def handleFileChange (s : AppState) (file : Option String) : AppState :=
  let s1 := { s with audioDuration := 0, selectedFile := file,
                     processedAudio := none,
                     originalWaveform := none, processedWaveform := none }
  match file with
  | some f =>
      { s1 with downloadFilename := "processed_" ++ originalStem f ++ "." ++ s1.outputFormat }
  | none => s1

/-- `handleSubmit` (`App.js`) composed with the api module: with no file it
only emits the validation toast; otherwise it enters loading, clears the
previous result, builds and sends the form data, and on resolution either
records the error toast or installs the new result (allocating one blob
URL, setting waveforms per `result.isJson` and `requestWaveform`, emitting
the warn toast when waveforms were requested but the reply was not JSON,
then the success toast).  `resp` is the response the one `fetch` resolves
with. -/
def handleSubmit (s : AppState) (resp : ServerResponse) : AppState :=
  match s.selectedFile with
  | none =>
      { s with toasts := s.toasts ++ [Toast.error "Please select an audio file first."] }
  | some file =>
    let s1 := { s with isLoading := true, processedAudio := none,
                       originalWaveform := none, processedWaveform := none }
    let fd := buildFormData file s1.denoiseStrength s1.outputFormat
                s1.applyNormalization s1.requestWaveform s1.eqBands
    let s2 := { s1 with requests := s1.requests ++ [fd] }
    match processAudio resp s2.nextUrl with
    | Except.error msg =>
        { s2 with toasts := s2.toasts ++ [Toast.error msg], isLoading := false }
    | Except.ok result =>
        let s3 := { s2 with
          createdUrls := s2.createdUrls ++ [result.urlId],
          urlMimes := s2.urlMimes ++ [(result.urlId, result.mimeType)],
          nextUrl := s2.nextUrl + 1,
          processedAudio := some result.urlId,
          downloadFilename := result.downloadFilename }
        let s4 :=
          if result.isJson && s3.requestWaveform then
            { s3 with originalWaveform := result.originalWaveform,
                      processedWaveform := result.processedWaveform }
          else if !result.isJson then
            { s3 with originalWaveform := none, processedWaveform := none }
          else s3
        let s5 :=
          if s4.requestWaveform && !result.isJson then
            { s4 with toasts := s4.toasts
              ++ [Toast.warn "Waveforms were requested, but the server response was not in the expected JSON format. Audio is processed."] }
          else s4
        { s5 with toasts := s5.toasts ++ [Toast.success "Audio processed successfully!"],
                  isLoading := false }

/-- `handleCanvasClick` (`WaveformDisplay.js`).  The early return
`if (!onWaveformClick || !data || data.length === 0 || !audioDuration) return;`
is the first guard (`!data` and `data.length === 0` together are
`data.getD [] = []`; `!audioDuration` is `audioDuration = 0` on the
nonnegative durations an audio element reports); `if (!canvas) return;` is
the second.  `some t` means the seek callback was invoked with
`seekTime = t = (x / width) * audioDuration`. -/
def handleCanvasClick (onWaveformClick canvasPresent : Bool)
    (data : Option (List ℚ)) (audioDuration x width : ℚ) : Option ℚ :=
  if onWaveformClick = false ∨ data.getD [] = [] ∨ audioDuration = 0 then none
  else if canvasPresent = false then none
  else some (x / width * audioDuration)

/-- C1 phrased from the claim: a band is included iff `enabled` is true and
it has a non-zero acoustic effect. -/
def claimBandIncluded (b : EqBand) : Prop :=
  b.enabled = true ∧ (b.gain ≠ 0 ∨ (b.type = "lowshelf" ∧ b.gain < 0)
    ∨ (b.type = "highshelf" ∧ b.gain < 0))

instance (b : EqBand) : Decidable (claimBandIncluded b) := by
  unfold claimBandIncluded
  exact inferInstance

/-- The band produced by editing the seed band `lowcut` to frequency 999999:
only used to witness that the merged value is stored verbatim. -/
def lowcutPatched : EqBand :=
  { id := "lowcut", name := "Low Cut", freq := 999999, gain := 0, q := 7/10,
    type := "lowshelf", editable := true, removable := false, enabled := true }

/-- A structured success response that omits `audio_format` and
`audio_filename` (the scenario of the response-interpreter default). -/
def jsonNoFormatResp : ServerResponse :=
  ServerResponse.jsonBody
    { audio_b64 := "QUJD", audio_format := none, audio_filename := none,
      original_waveform := some [1/2], processed_waveform := some [3/4] }

/-- A state in which the user requested mp3 output and selected a file. -/
def mp3RequestState : AppState :=
  { initialState with outputFormat := "mp3", selectedFile := some "song.flac" }

theorem bandActive_iff (b : EqBand) : bandActive b = true ↔ claimBandIncluded b := by
  unfold bandActive claimBandIncluded
  simp only [Bool.and_eq_true, Bool.or_eq_true, bne_iff_ne, beq_iff_eq,
    decide_eq_true_eq, ne_eq]
  tauto

/-- C1: in the payload built on submission, a band contributes an entry to
the serialized `eq_bands_json` array if and only if its `enabled` field is
true and it has a non-zero acoustic effect (`gain` nonzero, or a `lowshelf`
or `highshelf` with negative `gain`); each included entry carries exactly
`freq`, `gain`, `q`, `type` (the type `SerializedBand` has no other field),
with `id`, `name`, `editable`, `removable`, `enabled` stripped. -/
theorem activeEqBands_inclusion (bands : List EqBand) :
    activeEqBands bands
      = (bands.filter (fun b => decide (claimBandIncluded b))).map
          (fun b => { freq := b.freq, gain := b.gain, q := b.q, type := b.type }) := by
  unfold activeEqBands
  have hfil : bands.filter bandActive
      = bands.filter (fun b => decide (claimBandIncluded b)) := by
    apply List.filter_congr
    intro b _
    have h := bandActive_iff b
    by_cases hc : claimBandIncluded b
    · simp [h.mpr hc, hc]
    · have hfalse : bandActive b = false := by
        cases hba : bandActive b
        · rfl
        · exact absurd (h.mp hba) hc
      simp [hfalse, hc]
  rw [hfil]
  rfl

/-- C3 counterexample: the seed band `lowcut` has `removable = false`, yet
`handleRemoveEqBand` on its id removes it from the collection instead of
being a no-op. -/
theorem handleRemoveEqBand_removes_nonremovable :
    (defaultEqBands.map EqBand.id = ["lowcut", "clarity", "presence"]) ∧
    (∀ b ∈ defaultEqBands, b.id = "lowcut" → b.removable = false) ∧
    (handleRemoveEqBand defaultEqBands "lowcut").map EqBand.id = ["clarity", "presence"] := by
  decide

/-- C3 amended: `handleRemoveEqBand(id)` is a no-op exactly when no band
carries `id`; when a band matches it is removed regardless of its
`removable` flag (the protection of non-removable bands lives in the UI,
which renders a Remove control only for removable bands). -/
theorem handleRemoveEqBand_spec (bands : List EqBand) (id : String) :
    (handleRemoveEqBand bands id = bands ↔ ∀ b ∈ bands, b.id ≠ id) ∧
    (∀ b ∈ handleRemoveEqBand bands id, b.id ≠ id) ∧
    (∀ b ∈ bands, b.id ≠ id → b ∈ handleRemoveEqBand bands id) := by
  unfold handleRemoveEqBand
  refine ⟨?_, ?_, ?_⟩
  · rw [List.filter_eq_self]
    simp only [bne_iff_ne, ne_eq]
  · intro b hb
    have h := (List.mem_filter.mp hb).2
    simpa [bne_iff_ne] using h
  · intro b hb hne
    exact List.mem_filter.mpr ⟨hb, by simpa [bne_iff_ne] using hne⟩

theorem handleRemoveEqBand_spec_witness :
    handleRemoveEqBand defaultEqBands "nope" = defaultEqBands :=
  (handleRemoveEqBand_spec defaultEqBands "nope").1.mpr (by decide)

/-- C6 counterexample: editing the seed band `lowcut` to frequency 999999
(typed into the number input) stores 999999 Hz, far outside the declared
20 to 20000 Hz range — the handlers perform no clamping. -/
theorem handleBandChange_no_clamp :
    (handleBandChange defaultEqBands "lowcut" NumField.freq 999999).map EqBand.freq
      = [999999, 2500, 5000] ∧ ¬ (999999 : ℚ) ≤ 20000 := by
  decide

/-- C6 amended: `handleBandChange` followed by `handleUpdateEqBand` merges
the parsed numeric value verbatim into the matching band — the stored
`freq`, `gain` or `q` equals exactly the input value, with no clamping or
validation against the declared ranges (which exist only as HTML input
attributes); non-matching bands are left unchanged. -/
theorem handleBandChange_exact (bands : List EqBand) (id : String)
    (field : NumField) (value : ℚ) :
    ∀ b ∈ handleBandChange bands id field value,
      (b.id = id → numFieldGet b field = value) ∧ (b.id ≠ id → b ∈ bands) := by
  intro b hb
  cases field <;>
  · unfold handleBandChange handleUpdateEqBand at hb
    obtain ⟨a, ha, hab⟩ := List.mem_map.mp hb
    by_cases hid : a.id = id
    · rw [if_pos (by simpa using hid)] at hab
      constructor
      · intro _
        rw [← hab]
        rfl
      · intro hne
        exact absurd (by rw [← hab]; simpa [mergePatch] using hid) hne
    · rw [if_neg (by simpa using hid)] at hab
      constructor
      · intro heq
        exact absurd (hab ▸ heq) hid
      · intro _
        exact hab ▸ ha

theorem handleBandChange_exact_witness :
    numFieldGet lowcutPatched NumField.freq = 999999 := by
  have hlist : handleBandChange defaultEqBands "lowcut" NumField.freq 999999
      = lowcutPatched :: defaultEqBands.drop 1 := rfl
  have hmem : lowcutPatched ∈ handleBandChange defaultEqBands "lowcut" NumField.freq 999999 := by
    rw [hlist]
    exact List.mem_cons_self _ _
  exact ((handleBandChange_exact defaultEqBands "lowcut" NumField.freq 999999)
    lowcutPatched hmem).1 rfl

/-- C2 counterexample: a concrete submission (file selected, default
configuration) whose built multipart payload has no `trim_silence` field at
all — `handleSubmit` never appends one. -/
theorem buildFormData_no_trim_silence :
    hasField (buildFormData "test.wav" (1/2) "wav" false true defaultEqBands)
      "trim_silence" = false := by
  decide

/-- C2 amended: for every submission with a file selected, the built
multipart payload always contains `file`, `denoise_strength` (a number,
stringified by `FormData` serialization), `output_format`,
`apply_normalization` (stringified boolean) and `request_waveform`
(stringified boolean); no `trim_silence` field is ever present. -/
theorem buildFormData_always_fields (file : String) (ds : ℚ) (fmt : String)
    (an rwf : Bool) (bands : List EqBand) :
    getField (buildFormData file ds fmt an rwf bands) "file"
        = some (FormValue.fileVal file) ∧
    getField (buildFormData file ds fmt an rwf bands) "denoise_strength"
        = some (FormValue.numVal ds) ∧
    getField (buildFormData file ds fmt an rwf bands) "output_format"
        = some (FormValue.strVal fmt) ∧
    getField (buildFormData file ds fmt an rwf bands) "apply_normalization"
        = some (FormValue.strVal (jsString an)) ∧
    getField (buildFormData file ds fmt an rwf bands) "request_waveform"
        = some (FormValue.strVal (jsString rwf)) ∧
    getField (buildFormData file ds fmt an rwf bands) "trim_silence" = none := by
  unfold buildFormData getField
  split <;> exact ⟨rfl, rfl, rfl, rfl, rfl, rfl⟩

/-- C8: when no EQ band qualifies for inclusion (every band is disabled or
has no acoustic effect), the built multipart payload has no `eq_bands_json`
field at all — the key is absent rather than mapped to an empty array. -/
theorem buildFormData_omits_empty_eq (file : String) (ds : ℚ) (fmt : String)
    (an rwf : Bool) (bands : List EqBand)
    (h : ∀ b ∈ bands, ¬ claimBandIncluded b) :
    hasField (buildFormData file ds fmt an rwf bands) "eq_bands_json" = false := by
  have hnil : activeEqBands bands = [] := by
    unfold activeEqBands
    have hfil : bands.filter bandActive = [] := by
      rw [List.filter_eq_nil_iff]
      intro b hb hba
      exact h b hb ((bandActive_iff b).mp hba)
    rw [hfil]
    rfl
  unfold buildFormData hasField
  rw [hnil]
  rfl

theorem buildFormData_omits_empty_eq_witness :
    hasField (buildFormData "test.wav" (1/2) "wav" false true defaultEqBands)
      "eq_bands_json" = false :=
  buildFormData_omits_empty_eq "test.wav" (1/2) "wav" false true defaultEqBands
    (by decide)

/-- C5 counterexample: with mp3 requested and a structured response that
omits the audio format field, the interpreter tags the playable resource
`audio/wav` and synthesizes the filename `processed_audio.wav` — the fixed
default `wav`, not the requested `mp3`. -/
theorem processAudio_fixed_wav_default :
    mp3RequestState.outputFormat = "mp3" ∧
    (handleSubmit mp3RequestState jsonNoFormatResp).urlMimes
      = [(0, some "audio/wav")] ∧
    (handleSubmit mp3RequestState jsonNoFormatResp).downloadFilename
      = "processed_audio.wav" ∧
    ("audio/wav" : String) ≠ "audio/mp3" ∧
    ("processed_audio.wav" : String) ≠ "processed_audio.mp3" := by
  decide

/-- C5 amended: for every structured (JSON) success response whose body
omits the audio format field, the interpreter tags the decoded playable
resource with the fixed default subtype `audio/wav` and synthesizes the
fallback filename `processed_audio.wav`; the format requested in the
submission is not consulted (it is not an input of `processAudio`). -/
theorem processAudio_json_default (body : JsonBody) (url : Nat)
    (hfmt : body.audio_format = none) :
    processAudio (ServerResponse.jsonBody body) url
      = Except.ok
          { urlId := url, mimeType := some "audio/wav",
            downloadFilename := body.audio_filename.getD "processed_audio.wav",
            originalWaveform := body.original_waveform,
            processedWaveform := body.processed_waveform, isJson := true } := by
  simp only [processAudio, hfmt, Option.getD_none]
  rfl

theorem processAudio_json_default_witness :
    processAudio jsonNoFormatResp 0
      = Except.ok
          { urlId := 0, mimeType := some "audio/wav",
            downloadFilename := "processed_audio.wav",
            originalWaveform := some [1/2], processedWaveform := some [3/4],
            isJson := true } :=
  processAudio_json_default
    { audio_b64 := "QUJD", audio_format := none, audio_filename := none,
      original_waveform := some [1/2], processed_waveform := some [3/4] } 0 rfl

/-- C4: the client never releases a playable resource.  The claim says the
previous result's object URL is released before or immediately after
replacement; in the code neither `handleSubmit` nor `handleFileChange` (nor
the api module) ever calls `URL.revokeObjectURL`, so `revokedUrls` is
preserved by every transition, and in the concrete run
file-select → successful submit (URL 0) → successful submit (URL 1) the
second result replaces the first while nothing is ever revoked. -/
theorem objectUrls_never_revoked :
    (∀ s resp, (handleSubmit s resp).revokedUrls = s.revokedUrls) ∧
    (∀ s file, (handleFileChange s file).revokedUrls = s.revokedUrls) ∧
    ((handleSubmit (handleSubmit (handleFileChange initialState (some "song.wav"))
        (ServerResponse.stream none)) (ServerResponse.stream none)).processedAudio
      = some 1 ∧
     (handleSubmit (handleSubmit (handleFileChange initialState (some "song.wav"))
        (ServerResponse.stream none)) (ServerResponse.stream none)).createdUrls
      = [0, 1] ∧
     (handleSubmit (handleSubmit (handleFileChange initialState (some "song.wav"))
        (ServerResponse.stream none)) (ServerResponse.stream none)).revokedUrls
      = []) := by
  refine ⟨?_, ?_, by decide⟩
  · intro s resp
    unfold handleSubmit
    rcases hsel : s.selectedFile with _ | file
    · rfl
    · dsimp only
      cases hp : processAudio resp s.nextUrl with
      | error msg => rfl
      | ok result =>
        dsimp only
        simp only [apply_ite AppState.revokedUrls]
        split <;> (try split) <;> (try split) <;> rfl
  · intro s file
    unfold handleFileChange
    cases file <;> rfl

/-- C9: a submission attempted with no file selected issues no network
request, emits the validation toast, and leaves the job state untouched:
`isLoading` is unchanged (no loading state entered), and the stored result,
waveform data and allocated URLs are exactly as before. -/
theorem handleSubmit_no_file (s : AppState) (resp : ServerResponse)
    (h : s.selectedFile = none) :
    (handleSubmit s resp).requests = s.requests ∧
    (handleSubmit s resp).isLoading = s.isLoading ∧
    (handleSubmit s resp).processedAudio = s.processedAudio ∧
    (handleSubmit s resp).originalWaveform = s.originalWaveform ∧
    (handleSubmit s resp).processedWaveform = s.processedWaveform ∧
    (handleSubmit s resp).createdUrls = s.createdUrls ∧
    (handleSubmit s resp).toasts
      = s.toasts ++ [Toast.error "Please select an audio file first."] := by
  unfold handleSubmit
  rw [h]
  exact ⟨rfl, rfl, rfl, rfl, rfl, rfl, rfl⟩

theorem handleSubmit_no_file_witness :
    (handleSubmit initialState (ServerResponse.stream none)).requests
      = initialState.requests ∧
    (handleSubmit initialState (ServerResponse.stream none)).isLoading
      = initialState.isLoading ∧
    (handleSubmit initialState (ServerResponse.stream none)).processedAudio
      = initialState.processedAudio ∧
    (handleSubmit initialState (ServerResponse.stream none)).originalWaveform
      = initialState.originalWaveform ∧
    (handleSubmit initialState (ServerResponse.stream none)).processedWaveform
      = initialState.processedWaveform ∧
    (handleSubmit initialState (ServerResponse.stream none)).createdUrls
      = initialState.createdUrls ∧
    (handleSubmit initialState (ServerResponse.stream none)).toasts
      = initialState.toasts ++ [Toast.error "Please select an audio file first."] :=
  handleSubmit_no_file initialState (ServerResponse.stream none) rfl

/-- C7: on a pointer click at canvas-local coordinate `x` over canvas width
`width`, the seek callback is invoked exactly when a callback is registered,
the waveform data is non-empty, and the duration is known and positive
(durations reported by the audio element are nonnegative, whence the
hypothesis `0 ≤ duration`); when invoked, the seek time is
`(x / width) * duration`. -/
theorem handleCanvasClick_spec (cb canvas : Bool) (data : Option (List ℚ))
    (duration x width : ℚ) (hdur : 0 ≤ duration) (hcanvas : canvas = true) :
    (∀ t, handleCanvasClick cb canvas data duration x width = some t
        → t = x / width * duration) ∧
    ((handleCanvasClick cb canvas data duration x width).isSome
        ↔ cb = true ∧ (∃ l, data = some l ∧ l ≠ []) ∧ 0 < duration) := by
  subst hcanvas
  unfold handleCanvasClick
  constructor
  · intro t ht
    split_ifs at ht with h1 h2
    exact (Option.some.inj ht).symm
  · split_ifs with h1 h2
    · simp only [Option.isSome_none, Bool.false_eq_true, false_iff]
      rintro ⟨hcb, ⟨l, hl, hlne⟩, hpos⟩
      rcases h1 with h1 | h1 | h1
      · rw [hcb] at h1
        exact absurd h1 (by simp)
      · rw [hl] at h1
        exact hlne h1
      · exact hpos.ne' h1
    · simp at h2
    · refine iff_of_true rfl ?_
      push_neg at h1
      obtain ⟨hcb, hdata, hdur0⟩ := h1
      refine ⟨?_, ?_, ?_⟩
      · cases cb
        · exact absurd rfl hcb
        · rfl
      · cases data with
        | none => exact absurd rfl hdata
        | some l => exact ⟨l, rfl, by simpa using hdata⟩
      · exact lt_of_le_of_ne hdur (fun hh => hdur0 hh.symm)

theorem handleCanvasClick_spec_witness :
    handleCanvasClick true true (some [1/2, 1/2]) 10 150 300 = some 5 := by
  obtain ⟨hfun, hsome⟩ :=
    handleCanvasClick_spec true true (some [1/2, 1/2]) 10 150 300 (by norm_num) rfl
  have hs : (handleCanvasClick true true (some [1/2, 1/2]) 10 150 300).isSome := by
    rw [hsome]
    exact ⟨rfl, ⟨[1/2, 1/2], rfl, by simp⟩, by norm_num⟩
  obtain ⟨t, ht⟩ := Option.isSome_iff_exists.mp hs
  rw [ht, hfun t ht]
  simp only [Option.some.injEq]
  norm_num

/-- C10: seeking is independent of the waveform sample values — for any two
non-empty data arrays and identical click coordinate, canvas width, callback
registration and duration, `handleCanvasClick` produces the same invocation
with the same seek time (only emptiness of the data matters). -/
theorem handleCanvasClick_data_independent (cb canvas : Bool) (d1 d2 : List ℚ)
    (duration x width : ℚ) (h1 : d1 ≠ []) (h2 : d2 ≠ []) :
    handleCanvasClick cb canvas (some d1) duration x width
      = handleCanvasClick cb canvas (some d2) duration x width := by
  unfold handleCanvasClick
  simp only [Option.getD_some, h1, h2, false_or]

theorem handleCanvasClick_data_independent_witness :
    handleCanvasClick true true (some [1]) 10 150 300
      = handleCanvasClick true true (some [1/4, 3/4]) 10 150 300 :=
  handleCanvasClick_data_independent true true [1] [1/4, 3/4] 10 150 300
    (by decide) (by decide)

end ApiTut
